import Mathlib

/-!
Shallow embedding of `src/gradio_chat.py`, a Gradio chat application in which
an LLM assistant can invoke sandbox tools (read_file, write_file, write_files,
run_commands).  The two external collaborators — the LLM inference endpoint
and the sandbox — are modelled as parameters (`Client`, `SandboxModel`);
everything else (the tool wrapper functions, the dispatch loop in `chat_fn`,
`execute_command`, `set_model`, the global `messages` list and `model` string)
is translated from the source.

Python exceptions that the source catches are modelled with `Except` inside
the collaborator signatures; exceptions the source does NOT catch (the
`json.loads` of a tool call's argument string, the `**fn_args` keyword
binding, the `len(files)` call outside the `try` block in `write_files`)
surface as the `Except.error` branch of the embedded `chat_fn`.
-/

/-- A JSON value, as produced by a successful `json.loads`. -/
inductive Json where
  | null : Json
  | bool (b : Bool) : Json
  | num (n : Int) : Json
  | str (s : String) : Json
  | arr (xs : List Json) : Json
  | obj (kvs : List (String × Json)) : Json


/-- A single-quote character, used by `Json.pyRepr` to mirror Python `repr`. -/
def pyQuote : String := String.singleton (Char.ofNat 39)

mutual

/-- Python `repr` of a parsed JSON value (used when a value is interpolated
into an f-string inside a container). -/
def Json.pyRepr : Json → String
  | Json.null => "None"
  | Json.bool true => "True"
  | Json.bool false => "False"
  | Json.num n => toString n
  | Json.str s => pyQuote ++ s ++ pyQuote
  | Json.arr xs => "[" ++ String.intercalate ", " (Json.pyReprList xs) ++ "]"
  | Json.obj kvs => "\x7b" ++ String.intercalate ", " (Json.pyReprPairs kvs) ++ "\x7d"

/-- `repr` of each element of a JSON array. -/
def Json.pyReprList : List Json → List String
  | [] => []
  | x :: xs => Json.pyRepr x :: Json.pyReprList xs

/-- `repr` of each key/value pair of a JSON object. -/
def Json.pyReprPairs : List (String × Json) → List String
  | [] => []
  | (k, v) :: kvs => (pyQuote ++ k ++ pyQuote ++ ": " ++ Json.pyRepr v) :: Json.pyReprPairs kvs

end

/-- Python `str` of a parsed JSON value, as an f-string renders it: a string
renders bare, every other value renders as its `repr`. -/
def Json.pyStr : Json → String
  | Json.str s => s
  | j => Json.pyRepr j

/-- Python `len` on a parsed JSON value: defined for strings, lists and
dicts, a `TypeError` (here `none`) otherwise. -/
def Json.pyLen : Json → Option Nat
  | Json.str s => some s.length
  | Json.arr xs => some xs.length
  | Json.obj kvs => some kvs.length
  | _ => none

/-- One tool-call request inside an assistant message.  `id` is
`tool_call.id`; `name` is `tool_call.function.name`; `arguments` records the
outcome of `json.loads(tool_call.function.arguments)` on the raw argument
string the model supplied: `Except.ok` the parsed value, `Except.error` the
exception message when the raw string is not valid JSON. -/
structure ToolCall where
  id : String
  name : String
  arguments : Except String Json


/-- A message of the conversation store: the tagged union of user messages,
assistant messages (content plus requested tool calls) and tool-role
messages (the dicts built at lines 176-180 of the source). -/
inductive Message where
  | user (content : String) : Message
  | assistant (content : Option String) (tool_calls : List ToolCall) : Message
  | tool (tool_call_id : String) (content : String) : Message


/-- The tool-call identifier a message carries: `some` exactly for tool-role
messages. -/
def Message.toolCallId : Message → Option String
  | Message.tool tool_call_id _ => some tool_call_id
  | _ => none

/-- Whether a message has role `tool`. -/
def Message.isToolRole : Message → Bool
  | Message.tool _ _ => true
  | _ => false

/-- The result object of `sandbox.commands.run`: the fields `chat_fn` can
observe.  Only `stdout` is ever read by the source. -/
structure CommandResult where
  stdout : String
  exitCode : Int


/-- The external sandbox session, modelled by the outcome of each call the
source can make on it: `Except.error` is a raised sandbox exception (its
message), `Except.ok` a normal return. -/
structure SandboxModel where
  filesRead : Json → Except String String
  filesWrite : Json → Json → Except String Unit
  filesWriteFiles : Json → Except String Unit
  commandsRun : Json → Except String CommandResult

/-- One assistant message as returned by the inference endpoint
(`response.choices[0].message`): nullable content plus the ordered tool-call
requests. -/
structure ModelResponse where
  content : Option String
  tool_calls : List ToolCall


/-- The inference endpoint (`client.chat.completions.create`), modelled by
the outcome of each call: arguments are the active model identifier, the
message list, and whether the `tools` schema was passed (`true` at line 146,
`false` at line 182).  `Except.error` is a raised API exception. -/
structure Client where
  create : String → List Message → Bool → Except String ModelResponse

/-- Tool wrapper `read_file` (source lines 20-28): the sandbox call is inside
`try/except`, so a raised exception becomes an error string. -/
def read_file (sb : SandboxModel) (path : Json) : String :=
  match sb.filesRead path with
  | Except.ok content => content
  | Except.error e => "Error reading file: " ++ e

/-- Tool wrapper `write_file` (source lines 30-39). -/
def write_file (sb : SandboxModel) (path : Json) (data : Json) : String :=
  match sb.filesWrite path data with
  | Except.ok _ => "File created successfully at " ++ Json.pyStr path
  | Except.error e => "Error writing file: " ++ e

/-- Tool wrapper `write_files` (source lines 41-50).  `n` is `len(files)`,
already computed by the debug print *before* the `try` block (see
`decode_call`). -/
def write_files (sb : SandboxModel) (files : Json) (n : Nat) : String :=
  match sb.filesWriteFiles files with
  | Except.ok _ => toString n ++ " file(s) created successfully"
  | Except.error e => "Error writing multiple files: " ++ e

/-- Tool wrapper `run_commands` (source lines 52-60): on a completed command
the return value is `result.stdout`, whatever the exit code; a raised
sandbox exception becomes an error string. -/
def run_commands (sb : SandboxModel) (command : Json) : String :=
  match sb.commandsRun command with
  | Except.ok result => result.stdout
  | Except.error e => "Error running command: " ++ e

/-- The Python keyword binding `f(**fn_args)` for a function whose
parameters are exactly `expected` (all required, no defaults): succeeds iff
`fn_args` is a dict whose key set is exactly `expected`, returning the
values in parameter order; otherwise a `TypeError` is raised (`none`). -/
def bindKwargs (expected : List String) (fn_args : Json) : Option (List Json) :=
  match fn_args with
  | Json.obj kvs =>
      if expected.all (fun k => kvs.any (fun p => p.1 = k)) &&
         kvs.all (fun p => expected.contains p.1) then
        some (expected.map (fun k => (kvs.lookup k).getD Json.null))
      else
        none
  | _ => none

/-- The dispatch target of one tool call, after `json.loads` and keyword
binding succeeded: which wrapper runs with which bound arguments (the
`if/elif` chain at source lines 165-174). -/
inductive DecodedCall where
  | readFileCall (path : Json) : DecodedCall
  | writeFileCall (path : Json) (data : Json) : DecodedCall
  | writeFilesCall (files : Json) (n : Nat) : DecodedCall
  | runCommandsCall (command : Json) : DecodedCall
  | unknownCall (name : String) : DecodedCall


/-- The per-call steps of the loop body that can raise out of `chat_fn`:
`json.loads` of the raw arguments (line 162), then — for a known tool — the
`**fn_args` keyword binding at the call site, and for `write_files` the
`len(files)` of the debug print (line 42), which sits outside the `try`
block.  An unknown tool name performs no binding (the `else` at line 173).
`Except.error` is an exception propagating out of the turn. -/
def decode_call (tc : ToolCall) : Except String DecodedCall :=
  match tc.arguments with
  | Except.error e => Except.error e
  | Except.ok fn_args =>
      if tc.name = "read_file" then
        match bindKwargs ["path"] fn_args with
        | some [path] => Except.ok (DecodedCall.readFileCall path)
        | _ => Except.error "TypeError: read_file() argument mismatch"
      else if tc.name = "write_file" then
        match bindKwargs ["path", "data"] fn_args with
        | some [path, data] => Except.ok (DecodedCall.writeFileCall path data)
        | _ => Except.error "TypeError: write_file() argument mismatch"
      else if tc.name = "write_files" then
        match bindKwargs ["files"] fn_args with
        | some [files] =>
            match Json.pyLen files with
            | some n => Except.ok (DecodedCall.writeFilesCall files n)
            | none => Except.error "TypeError: object has no len()"
        | _ => Except.error "TypeError: write_files() argument mismatch"
      else if tc.name = "run_commands" then
        match bindKwargs ["command"] fn_args with
        | some [command] => Except.ok (DecodedCall.runCommandsCall command)
        | _ => Except.error "TypeError: run_commands() argument mismatch"
      else
        Except.ok (DecodedCall.unknownCall tc.name)

/-- Runs a decoded tool call: the wrapper functions never raise (each guards
its sandbox call with `try/except`), and an unknown tool yields the error
string of line 174, so this step is total. -/
def run_decoded (sb : SandboxModel) : DecodedCall → String
  | DecodedCall.readFileCall path => read_file sb path
  | DecodedCall.writeFileCall path data => write_file sb path data
  | DecodedCall.writeFilesCall files n => write_files sb files n
  | DecodedCall.runCommandsCall command => run_commands sb command
  | DecodedCall.unknownCall name => "Error: Unknown tool " ++ name

/-- The string `fn_result` that one tool call contributes when its decode
succeeds (the content of the tool-role message, line 179; `str` of a string
is the string itself). -/
def run_call (sb : SandboxModel) (tc : ToolCall) : String :=
  match decode_call tc with
  | Except.ok dc => run_decoded sb dc
  | Except.error e => e

/-- The tool-role message appended for one successfully decoded tool call
(source lines 176-180): the request's `id` echoed as `tool_call_id`, the
stringified result as content. -/
def tool_message (sb : SandboxModel) (tc : ToolCall) : Message :=
  Message.tool tc.id (run_call sb tc)

/-- The `for tool_call in assistant_msg.tool_calls` loop (source lines
160-180), threading the `messages` list: each iteration decodes, runs and
appends one tool-role message; a decode exception aborts the loop with the
messages appended so far kept (the Python list is mutated in place). -/
def process_tool_calls (sb : SandboxModel) (msgs : List Message) :
    List ToolCall → List Message × Except String Unit
  | [] => (msgs, Except.ok ())
  | tc :: rest =>
      match decode_call tc with
      | Except.error e => (msgs, Except.error e)
      | Except.ok dc =>
          process_tool_calls sb (msgs ++ [Message.tool tc.id (run_decoded sb dc)]) rest

/-- The process-wide mutable state: the global `messages` list (line 132)
and the global `model` identifier (line 14). -/
structure ConversationState where
  messages : List Message
  model : String


/-- The initial process state: `messages = []`, the default model string. -/
def initialState : ConversationState :=
  { messages := [], model := "meta-llama/llama-3.3-70b-instruct" }

/-- `set_model` (source lines 135-139): overwrites the global model
identifier and returns the status markdown; `messages` is untouched. -/
def set_model (st : ConversationState) (selected_model : String) :
    ConversationState × String :=
  ({ st with model := selected_model },
   "✅ Model switched to **" ++ selected_model ++ "**")

/-- `chat_fn` (source lines 141-192), with the globals passed explicitly.
Returns the final state together with `Except.ok output_text` on normal
return (`output_text` is nullable because `.content` can be `None`), or
`Except.error e` when an uncaught exception propagates out of the turn: a
raised model call (lines 146, 182) or a raised per-call decode (see
`decode_call`).  Every append performed before the raise survives, because
the Python global list is mutated in place. -/
def chat_fn (client : Client) (sb : SandboxModel) (st : ConversationState)
    (user_message : String) : ConversationState × Except String (Option String) :=
  let msgs1 := st.messages ++ [Message.user user_message]
  match client.create st.model msgs1 true with
  | Except.error e => ({ st with messages := msgs1 }, Except.error e)
  | Except.ok assistant_msg =>
      let msgs2 := msgs1 ++ [Message.assistant assistant_msg.content assistant_msg.tool_calls]
      if assistant_msg.tool_calls.isEmpty then
        ({ st with messages := msgs2 }, Except.ok assistant_msg.content)
      else
        match process_tool_calls sb msgs2 assistant_msg.tool_calls with
        | (msgs3, Except.error e) => ({ st with messages := msgs3 }, Except.error e)
        | (msgs3, Except.ok _) =>
            match client.create st.model msgs3 false with
            | Except.error e => ({ st with messages := msgs3 }, Except.error e)
            | Except.ok final_answer =>
                ({ st with messages :=
                     msgs3 ++ [Message.assistant final_answer.content final_answer.tool_calls] },
                 Except.ok final_answer.content)

/-- Python `str.strip()`: the string with leading and trailing whitespace
removed. -/
def pyStrip (s : String) : String :=
  String.mk (((s.toList.dropWhile Char.isWhitespace).reverse.dropWhile
    Char.isWhitespace).reverse)

/-- `execute_command` (source lines 195-200): the ad-hoc command surface.
It never touches the conversation state, so the embedding threads `st`
through unchanged; a blank command short-circuits before any sandbox call. -/
def execute_command (sb : SandboxModel) (st : ConversationState)
    (command : String) : ConversationState × String :=
  if pyStrip command = "" then
    (st, "⚠️ Please enter a command.")
  else
    let output := run_commands sb (Json.str command)
    (st, if output ≠ "" then "```bash\n" ++ output ++ "\n```"
         else "✅ Command executed (no output).")

/-- A tool result string tagged as an error: every failure path of the
wrapper functions and the unknown-tool branch produces a string beginning
with "Error". -/
def isErrorTagged (s : String) : Prop := ∃ rest, s = "Error" ++ rest

/-- The tool names the dispatch chain of `chat_fn` recognizes (the
registry). -/
def registryNames : List String :=
  ["read_file", "write_file", "write_files", "run_commands"]

/-! ### Concrete fixtures: a sandbox and model responses for evaluation -/

/-- A concrete sandbox: `a.txt` readable, other reads raise, `ls` succeeds
with stdout and exit code 0, any other command completes with empty stdout
and exit code 127. -/
def sbDemo : SandboxModel :=
  { filesRead := fun path =>
      match path with
      | Json.str "a.txt" => Except.ok "hello"
      | _ => Except.error "FileNotFoundError: no such file",
    filesWrite := fun _ _ => Except.ok (),
    filesWriteFiles := fun _ => Except.ok (),
    commandsRun := fun command =>
      match command with
      | Json.str "ls" => Except.ok { stdout := "a.txt\nb.txt", exitCode := 0 }
      | _ => Except.ok { stdout := "", exitCode := 127 } }

/-- A client that answers every initial call (tools passed) with
`withTools` and every follow-up call (no tools) with `noTools`. -/
def mkClient (withTools noTools : Except String ModelResponse) : Client :=
  { create := fun _ _ toolsGiven => if toolsGiven then withTools else noTools }

/-- Request: run `ls`. -/
def tcLs : ToolCall :=
  { id := "call_1", name := "run_commands",
    arguments := Except.ok (Json.obj [("command", Json.str "ls")]) }

/-- Request: read the existing file `a.txt`. -/
def tcReadA : ToolCall :=
  { id := "call_2", name := "read_file",
    arguments := Except.ok (Json.obj [("path", Json.str "a.txt")]) }

/-- Request: read a file `sbDemo` raises on. -/
def tcReadMissing : ToolCall :=
  { id := "call_3", name := "read_file",
    arguments := Except.ok (Json.obj [("path", Json.str "missing.txt")]) }

/-- Request naming a tool outside the registry, with well-formed arguments. -/
def tcUnknown : ToolCall :=
  { id := "call_4", name := "list_files",
    arguments := Except.ok (Json.obj []) }

/-- Request for a known tool whose raw argument string is not valid JSON:
`json.loads` raises. -/
def tcBadJson : ToolCall :=
  { id := "call_5", name := "read_file",
    arguments := Except.error "Expecting value: line 1 column 1 (char 0)" }

/-- Request naming an unknown tool whose raw argument string is not valid
JSON. -/
def tcUnknownBadJson : ToolCall :=
  { id := "call_6", name := "list_files",
    arguments := Except.error "Expecting value: line 1 column 1 (char 0)" }

/-- An initial response carrying two tool-call requests. -/
def respBatch2 : ModelResponse := { content := none, tool_calls := [tcLs, tcReadA] }

/-- An initial response carrying three requests, the middle one failing at
execution time (the sandbox raises inside the wrapper). -/
def respBatch3 : ModelResponse :=
  { content := some "working on it", tool_calls := [tcLs, tcReadMissing, tcReadA] }

/-- A follow-up answer without tool calls. -/
def respFinal : ModelResponse :=
  { content := some "The directory contains a.txt and b.txt.", tool_calls := [] }

/-- A follow-up answer that itself carries a tool-call request. -/
def respFinalWithCalls : ModelResponse :=
  { content := some "let me also run ls", tool_calls := [tcLs] }

/-- Client: two-request batch, then a plain follow-up answer. -/
def clientA : Client := mkClient (Except.ok respBatch2) (Except.ok respFinal)

/-- Client: three-request batch whose middle request fails at execution,
then a plain follow-up answer. -/
def clientB : Client := mkClient (Except.ok respBatch3) (Except.ok respFinal)

/-- Client: two-request batch, then a follow-up answer that itself carries
a tool-call request. -/
def clientC : Client := mkClient (Except.ok respBatch2) (Except.ok respFinalWithCalls)

/-- Client whose every call raises. -/
def clientF : Client :=
  mkClient (Except.error "APIConnectionError: connection refused")
    (Except.error "APIConnectionError: connection refused")

/-- Client whose initial call succeeds with a batch but whose follow-up
call raises. -/
def clientG : Client :=
  mkClient (Except.ok respBatch2) (Except.error "RateLimitError: too many requests")

/-- Initial response: a single request naming an unknown tool with a
malformed argument payload. -/
def respUnknownBad : ModelResponse := { content := none, tool_calls := [tcUnknownBadJson] }

/-- Client serving `respUnknownBad`. -/
def clientU : Client := mkClient (Except.ok respUnknownBad) (Except.ok respFinal)

/-- Initial response: a three-request batch whose middle request names an
unknown tool (with well-formed arguments). -/
def respWithUnknown : ModelResponse :=
  { content := some "checking", tool_calls := [tcLs, tcUnknown, tcReadA] }

/-- Client serving `respWithUnknown`. -/
def clientK : Client := mkClient (Except.ok respWithUnknown) (Except.ok respFinal)

/-- Initial response: a single request for a known tool with a malformed
argument payload. -/
def respBadOnly : ModelResponse := { content := none, tool_calls := [tcBadJson] }

/-- Client serving `respBadOnly`. -/
def clientM : Client := mkClient (Except.ok respBadOnly) (Except.ok respFinal)

/-- Initial response: a three-request batch whose middle request has a
malformed argument payload. -/
def respWithBad : ModelResponse :=
  { content := none, tool_calls := [tcLs, tcBadJson, tcReadA] }

/-- Client serving `respWithBad`. -/
def clientN : Client := mkClient (Except.ok respWithBad) (Except.ok respFinal)

/-- A sandbox on which every command completes with stdout "boom" and exit
code 2. -/
def sbExit2 : SandboxModel :=
  { filesRead := fun _ => Except.ok "",
    filesWrite := fun _ _ => Except.ok (),
    filesWriteFiles := fun _ => Except.ok (),
    commandsRun := fun _ => Except.ok { stdout := "boom", exitCode := 2 } }

/-- A sandbox on which every command completes with stdout "boom" and exit
code 0. -/
def sbExit0 : SandboxModel :=
  { filesRead := fun _ => Except.ok "",
    filesWrite := fun _ _ => Except.ok (),
    filesWriteFiles := fun _ => Except.ok (),
    commandsRun := fun _ => Except.ok { stdout := "boom", exitCode := 0 } }

/-! ### Helper lemmas about the tool-call loop -/

/-- The loop only ever appends: whatever happens, the incoming message list
is an initial segment of the outgoing one. -/
theorem process_tool_calls_fst_append (sb : SandboxModel) (tcs : List ToolCall)
    (msgs : List Message) :
    ∃ t, (process_tool_calls sb msgs tcs).1 = msgs ++ t := by
  induction tcs generalizing msgs with
  | nil => exact ⟨[], by simp [process_tool_calls]⟩
  | cons tc rest ih =>
      cases hd : decode_call tc with
      | error e => exact ⟨[], by simp [process_tool_calls, hd]⟩
      | ok dc =>
          obtain ⟨t, ht⟩ := ih (msgs ++ [Message.tool tc.id (run_decoded sb dc)])
          exact ⟨Message.tool tc.id (run_decoded sb dc) :: t, by
            simp [process_tool_calls, hd, ht]⟩

/-- When every call of the batch decodes, the loop appends exactly one
tool-role message per call, in batch order, and finishes normally. -/
theorem process_tool_calls_ok_eq (sb : SandboxModel) (tcs : List ToolCall)
    (msgs : List Message) (h : ∀ tc ∈ tcs, (decode_call tc).isOk = true) :
    process_tool_calls sb msgs tcs =
      (msgs ++ tcs.map (tool_message sb), Except.ok ()) := by
  induction tcs generalizing msgs with
  | nil => simp [process_tool_calls]
  | cons tc rest ih =>
      have htc : (decode_call tc).isOk = true := h tc (List.mem_cons_self tc rest)
      cases hd : decode_call tc with
      | error e => rw [hd] at htc; simp [Except.isOk, Except.toBool] at htc
      | ok dc =>
          have hmsg : tool_message sb tc = Message.tool tc.id (run_decoded sb dc) := by
            simp [tool_message, run_call, hd]
          have ih2 := ih (msgs ++ [Message.tool tc.id (run_decoded sb dc)])
            (fun tc2 h2 => h tc2 (List.mem_cons_of_mem tc h2))
          simp [process_tool_calls, hd, ih2, hmsg]

/-- When the calls before position `i` decode but call `i` raises, the loop
stops at `i` with the earlier appends kept and the exception escaping. -/
theorem process_tool_calls_error_eq (sb : SandboxModel) (pre post : List ToolCall)
    (bad : ToolCall) (e : String) (msgs : List Message)
    (hpre : ∀ tc ∈ pre, (decode_call tc).isOk = true)
    (hbad : decode_call bad = Except.error e) :
    process_tool_calls sb msgs (pre ++ bad :: post) =
      (msgs ++ pre.map (tool_message sb), Except.error e) := by
  induction pre generalizing msgs with
  | nil => simp [process_tool_calls, hbad]
  | cons tc rest ih =>
      have htc : (decode_call tc).isOk = true := hpre tc (List.mem_cons_self tc rest)
      cases hd : decode_call tc with
      | error e2 => rw [hd] at htc; simp [Except.isOk, Except.toBool] at htc
      | ok dc =>
          have hmsg : tool_message sb tc = Message.tool tc.id (run_decoded sb dc) := by
            simp [tool_message, run_call, hd]
          have ih2 := ih (msgs ++ [Message.tool tc.id (run_decoded sb dc)])
            (fun tc2 h2 => hpre tc2 (List.mem_cons_of_mem tc h2))
          simp [process_tool_calls, hd, ih2, hmsg]

/-! ### Helper lemmas about one turn of `chat_fn` -/

/-- A turn whose initial model call raises: the error propagates and the
store keeps exactly the appended user message. -/
theorem chat_fn_initial_error_eq (client : Client) (sb : SandboxModel)
    (st : ConversationState) (um : String) (e : String)
    (h1 : client.create st.model (st.messages ++ [Message.user um]) true =
      Except.error e) :
    chat_fn client sb st um =
      ({ st with messages := st.messages ++ [Message.user um] }, Except.error e) := by
  simp [chat_fn, h1]

/-- A turn whose initial response carries no tool calls: the assistant
message is appended and its content is the output. -/
theorem chat_fn_direct_eq (client : Client) (sb : SandboxModel)
    (st : ConversationState) (um : String) (resp : ModelResponse)
    (h1 : client.create st.model (st.messages ++ [Message.user um]) true =
      Except.ok resp)
    (hnil : resp.tool_calls = []) :
    chat_fn client sb st um =
      ({ st with messages :=
           st.messages ++ [Message.user um, Message.assistant resp.content []] },
       Except.ok resp.content) := by
  simp [chat_fn, h1, hnil]

/-- A full tool round: initial response with a nonempty batch that decodes
throughout, then a successful follow-up call.  The resulting store is the
user message, the assistant message, one tool-role message per request in
request order, then the follow-up assistant message. -/
theorem chat_fn_tools_ok_eq (client : Client) (sb : SandboxModel)
    (st : ConversationState) (um : String) (resp fresp : ModelResponse)
    (h1 : client.create st.model (st.messages ++ [Message.user um]) true =
      Except.ok resp)
    (hne : resp.tool_calls ≠ [])
    (hdec : ∀ tc ∈ resp.tool_calls, (decode_call tc).isOk = true)
    (h2 : client.create st.model
        (st.messages ++ [Message.user um, Message.assistant resp.content resp.tool_calls]
          ++ resp.tool_calls.map (tool_message sb)) false = Except.ok fresp) :
    chat_fn client sb st um =
      ({ st with messages :=
           st.messages ++ [Message.user um, Message.assistant resp.content resp.tool_calls]
             ++ resp.tool_calls.map (tool_message sb)
             ++ [Message.assistant fresp.content fresp.tool_calls] },
       Except.ok fresp.content) := by
  have hfalse : resp.tool_calls.isEmpty = false := by
    cases hc : resp.tool_calls with
    | nil => exact absurd hc hne
    | cons a l => rfl
  have hpt := process_tool_calls_ok_eq sb resp.tool_calls
    ((st.messages ++ [Message.user um]) ++ [Message.assistant resp.content resp.tool_calls])
    hdec
  simp only [chat_fn, h1, hfalse, Bool.false_eq_true, if_false, hpt]
  rw [show (st.messages ++ [Message.user um]) ++
        [Message.assistant resp.content resp.tool_calls] =
      st.messages ++ [Message.user um, Message.assistant resp.content resp.tool_calls]
    from by simp]
  rw [h2]

/-- A tool round whose follow-up model call raises: the error propagates
and the store ends with the tool-role messages, no follow-up assistant
message. -/
theorem chat_fn_followup_error_eq (client : Client) (sb : SandboxModel)
    (st : ConversationState) (um : String) (resp : ModelResponse) (e : String)
    (h1 : client.create st.model (st.messages ++ [Message.user um]) true =
      Except.ok resp)
    (hne : resp.tool_calls ≠ [])
    (hdec : ∀ tc ∈ resp.tool_calls, (decode_call tc).isOk = true)
    (h2 : client.create st.model
        (st.messages ++ [Message.user um, Message.assistant resp.content resp.tool_calls]
          ++ resp.tool_calls.map (tool_message sb)) false = Except.error e) :
    chat_fn client sb st um =
      ({ st with messages :=
           st.messages ++ [Message.user um, Message.assistant resp.content resp.tool_calls]
             ++ resp.tool_calls.map (tool_message sb) },
       Except.error e) := by
  have hfalse : resp.tool_calls.isEmpty = false := by
    cases hc : resp.tool_calls with
    | nil => exact absurd hc hne
    | cons a l => rfl
  have hpt := process_tool_calls_ok_eq sb resp.tool_calls
    ((st.messages ++ [Message.user um]) ++ [Message.assistant resp.content resp.tool_calls])
    hdec
  simp only [chat_fn, h1, hfalse, Bool.false_eq_true, if_false, hpt]
  rw [show (st.messages ++ [Message.user um]) ++
        [Message.assistant resp.content resp.tool_calls] =
      st.messages ++ [Message.user um, Message.assistant resp.content resp.tool_calls]
    from by simp]
  rw [h2]

/-- A tool round in which one request's decode raises (malformed JSON, bad
keyword binding, or a `len`-less `files` value): the exception escapes the
turn, the earlier requests' tool-role messages stay appended, and neither
the failing request nor any later request gets a tool-role message. -/
theorem chat_fn_decode_error_eq (client : Client) (sb : SandboxModel)
    (st : ConversationState) (um : String) (resp : ModelResponse)
    (pre post : List ToolCall) (bad : ToolCall) (e : String)
    (h1 : client.create st.model (st.messages ++ [Message.user um]) true =
      Except.ok resp)
    (hsplit : resp.tool_calls = pre ++ bad :: post)
    (hpre : ∀ tc ∈ pre, (decode_call tc).isOk = true)
    (hbad : decode_call bad = Except.error e) :
    chat_fn client sb st um =
      ({ st with messages :=
           st.messages ++ [Message.user um, Message.assistant resp.content resp.tool_calls]
             ++ pre.map (tool_message sb) },
       Except.error e) := by
  have hfalse : resp.tool_calls.isEmpty = false := by
    rw [hsplit]
    cases pre <;> rfl
  have hpt := process_tool_calls_error_eq sb pre post bad e
    ((st.messages ++ [Message.user um]) ++ [Message.assistant resp.content resp.tool_calls])
    hpre hbad
  rw [← hsplit] at hpt
  simp only [chat_fn, h1, hfalse, Bool.false_eq_true, if_false, hpt]
  simp

/-! ### Claim theorems -/

/-- C1: for a completed turn whose initial assistant message carries the
batch `resp.tool_calls` of N tool-call requests, exactly N tool-role
messages are appended to the store (one per request), and the i-th appended
tool-role message is the message of the i-th request — the store lists them
in the order the model emitted the requests. -/
theorem c1_tool_messages_in_request_order (client : Client) (sb : SandboxModel)
    (st : ConversationState) (um : String) (resp fresp : ModelResponse)
    (h1 : client.create st.model (st.messages ++ [Message.user um]) true =
      Except.ok resp)
    (hne : resp.tool_calls ≠ [])
    (hdec : ∀ tc ∈ resp.tool_calls, (decode_call tc).isOk = true)
    (h2 : client.create st.model
        (st.messages ++ [Message.user um, Message.assistant resp.content resp.tool_calls]
          ++ resp.tool_calls.map (tool_message sb)) false = Except.ok fresp) :
    (chat_fn client sb st um).1.messages =
      st.messages ++ [Message.user um, Message.assistant resp.content resp.tool_calls]
        ++ resp.tool_calls.map (tool_message sb)
        ++ [Message.assistant fresp.content fresp.tool_calls] ∧
    (resp.tool_calls.map (tool_message sb)).length = resp.tool_calls.length ∧
    ∀ i : Nat, (resp.tool_calls.map (tool_message sb))[i]? =
      (resp.tool_calls[i]?).map (tool_message sb) := by
  refine ⟨?_, by simp, ?_⟩
  · rw [chat_fn_tools_ok_eq client sb st um resp fresp h1 hne hdec h2]
  · intro i
    simp

/-- C1 witness: the two-request batch of `clientA` against `sbDemo`
produces exactly its two tool-role messages in request order. -/
theorem c1_witness :
    (clientA.create initialState.model (initialState.messages ++ [Message.user "list files"])
        true = Except.ok respBatch2) ∧
    respBatch2.tool_calls ≠ [] ∧
    (∀ tc ∈ respBatch2.tool_calls, (decode_call tc).isOk = true) ∧
    (chat_fn clientA sbDemo initialState "list files").1.messages =
      initialState.messages
        ++ [Message.user "list files", Message.assistant respBatch2.content respBatch2.tool_calls]
        ++ respBatch2.tool_calls.map (tool_message sbDemo)
        ++ [Message.assistant respFinal.content respFinal.tool_calls] :=
  ⟨rfl, List.cons_ne_nil _ _, by decide,
    (c1_tool_messages_in_request_order clientA sbDemo initialState "list files"
      respBatch2 respFinal rfl (List.cons_ne_nil _ _) (by decide) rfl).1⟩

/-- C9: in a completed turn, every appended tool-role message echoes the
model-supplied identifier of the request it answers, unchanged: the message
appended for request `tc` carries `tool_call_id = tc.id`. -/
theorem c9_tool_call_id_echoed (client : Client) (sb : SandboxModel)
    (st : ConversationState) (um : String) (resp fresp : ModelResponse)
    (h1 : client.create st.model (st.messages ++ [Message.user um]) true =
      Except.ok resp)
    (hne : resp.tool_calls ≠ [])
    (hdec : ∀ tc ∈ resp.tool_calls, (decode_call tc).isOk = true)
    (h2 : client.create st.model
        (st.messages ++ [Message.user um, Message.assistant resp.content resp.tool_calls]
          ++ resp.tool_calls.map (tool_message sb)) false = Except.ok fresp) :
    (chat_fn client sb st um).1.messages =
      st.messages ++ [Message.user um, Message.assistant resp.content resp.tool_calls]
        ++ resp.tool_calls.map (tool_message sb)
        ++ [Message.assistant fresp.content fresp.tool_calls] ∧
    ∀ tc ∈ resp.tool_calls, (tool_message sb tc).toolCallId = some tc.id := by
  refine ⟨?_, fun tc _ => rfl⟩
  rw [chat_fn_tools_ok_eq client sb st um resp fresp h1 hne hdec h2]

/-- C9 witness: both tool-role messages of the `clientA` turn carry their
request's identifier. -/
theorem c9_witness :
    (clientA.create initialState.model (initialState.messages ++ [Message.user "list files"])
        true = Except.ok respBatch2) ∧
    (∀ tc ∈ respBatch2.tool_calls, (tool_message sbDemo tc).toolCallId = some tc.id) := by
  refine ⟨rfl, ?_⟩
  exact (c9_tool_call_id_echoed clientA sbDemo initialState "list files"
    respBatch2 respFinal rfl (List.cons_ne_nil _ _) (by decide) rfl).2

/-- C2: if one request of a batch fails at execution — its result string is
error-tagged — the other requests still execute, all of their results are
still appended (the failing request included), and the turn still completes
with the follow-up answer as output. -/
theorem c2_failure_isolation (client : Client) (sb : SandboxModel)
    (st : ConversationState) (um : String) (resp fresp : ModelResponse) (i : Nat)
    (h1 : client.create st.model (st.messages ++ [Message.user um]) true =
      Except.ok resp)
    (hne : resp.tool_calls ≠ [])
    (hdec : ∀ tc ∈ resp.tool_calls, (decode_call tc).isOk = true)
    (hi : i < resp.tool_calls.length)
    (herr : isErrorTagged (run_call sb (resp.tool_calls.get ⟨i, hi⟩)))
    (h2 : client.create st.model
        (st.messages ++ [Message.user um, Message.assistant resp.content resp.tool_calls]
          ++ resp.tool_calls.map (tool_message sb)) false = Except.ok fresp) :
    chat_fn client sb st um =
      ({ st with messages :=
           st.messages ++ [Message.user um, Message.assistant resp.content resp.tool_calls]
             ++ resp.tool_calls.map (tool_message sb)
             ++ [Message.assistant fresp.content fresp.tool_calls] },
       Except.ok fresp.content) :=
  chat_fn_tools_ok_eq client sb st um resp fresp h1 hne hdec h2

/-- C2 witness: in the three-request batch of `clientB`, request #2 (the
read of a missing file) fails with an error-tagged result, yet all three
tool-role messages are appended and the follow-up answer is the output. -/
theorem c2_witness :
    (∀ tc ∈ respBatch3.tool_calls, (decode_call tc).isOk = true) ∧
    (1 < respBatch3.tool_calls.length) ∧
    isErrorTagged (run_call sbDemo (respBatch3.tool_calls.get ⟨1, by decide⟩)) ∧
    chat_fn clientB sbDemo initialState "list files" =
      ({ initialState with messages :=
           initialState.messages
             ++ [Message.user "list files",
                 Message.assistant respBatch3.content respBatch3.tool_calls]
             ++ respBatch3.tool_calls.map (tool_message sbDemo)
             ++ [Message.assistant respFinal.content respFinal.tool_calls] },
       Except.ok respFinal.content) :=
  ⟨by decide, by decide,
    ⟨" reading file: FileNotFoundError: no such file", by rfl⟩,
    c2_failure_isolation clientB sbDemo initialState "list files" respBatch3 respFinal 1
      rfl (List.cons_ne_nil _ _) (by decide) (by decide)
      ⟨" reading file: FileNotFoundError: no such file", by rfl⟩ rfl⟩

/-- C4: the follow-up model call is made with the store's full history
(user message, assistant message, all tool-role messages) and no tool
schema (`false`); whatever assistant message it returns — here one that
itself carries tool-call requests — is appended as-is, its content is the
turn's output, and no further tool-role message is appended: the follow-up
response is never re-examined for tool calls. -/
theorem c4_followup_single_round (client : Client) (sb : SandboxModel)
    (st : ConversationState) (um : String) (resp fresp : ModelResponse)
    (h1 : client.create st.model (st.messages ++ [Message.user um]) true =
      Except.ok resp)
    (hne : resp.tool_calls ≠ [])
    (hdec : ∀ tc ∈ resp.tool_calls, (decode_call tc).isOk = true)
    (h2 : client.create st.model
        (st.messages ++ [Message.user um, Message.assistant resp.content resp.tool_calls]
          ++ resp.tool_calls.map (tool_message sb)) false = Except.ok fresp)
    (hftc : fresp.tool_calls ≠ []) :
    chat_fn client sb st um =
      ({ st with messages :=
           st.messages ++ [Message.user um, Message.assistant resp.content resp.tool_calls]
             ++ resp.tool_calls.map (tool_message sb)
             ++ [Message.assistant fresp.content fresp.tool_calls] },
       Except.ok fresp.content) ∧
    ((chat_fn client sb st um).1.messages.filter (fun m => m.isToolRole)).length =
      (st.messages.filter (fun m => m.isToolRole)).length + resp.tool_calls.length := by
  have heq := chat_fn_tools_ok_eq client sb st um resp fresp h1 hne hdec h2
  refine ⟨heq, ?_⟩
  rw [heq]
  have hall : (resp.tool_calls.map (tool_message sb)).filter (fun m => m.isToolRole) =
      resp.tool_calls.map (tool_message sb) := by
    refine List.filter_eq_self.mpr (fun m hm => ?_)
    obtain ⟨tc, _, rfl⟩ := List.mem_map.mp hm
    rfl
  simp only [List.filter_append, List.length_append, hall, List.length_map]
  simp [Message.isToolRole]

/-- C4 witness: `clientC`'s follow-up answer carries a tool-call request,
yet it is appended as the final message and its content is the output. -/
theorem c4_witness :
    respFinalWithCalls.tool_calls ≠ [] ∧
    chat_fn clientC sbDemo initialState "list files" =
      ({ initialState with messages :=
           initialState.messages
             ++ [Message.user "list files",
                 Message.assistant respBatch2.content respBatch2.tool_calls]
             ++ respBatch2.tool_calls.map (tool_message sbDemo)
             ++ [Message.assistant respFinalWithCalls.content respFinalWithCalls.tool_calls] },
       Except.ok respFinalWithCalls.content) :=
  ⟨List.cons_ne_nil _ _,
    (c4_followup_single_round clientC sbDemo initialState "list files"
      respBatch2 respFinalWithCalls rfl (List.cons_ne_nil _ _) (by decide) rfl
      (List.cons_ne_nil _ _)).1⟩

/-- C5: a raised model call surfaces as a turn-level failure.  First
conjunct: if the initial call raises, the store keeps exactly the appended
user message — no assistant or tool message is appended for a turn whose
model call never returned.  Second conjunct: if the follow-up call raises
after a tool round, the error still propagates and no assistant message is
appended for the call that never returned. -/
theorem c5_model_failure_leaves_store_consistent (client : Client)
    (sb : SandboxModel) (st : ConversationState) (um : String) :
    (∀ e, client.create st.model (st.messages ++ [Message.user um]) true =
        Except.error e →
      chat_fn client sb st um =
        ({ st with messages := st.messages ++ [Message.user um] }, Except.error e)) ∧
    (∀ resp e,
      client.create st.model (st.messages ++ [Message.user um]) true = Except.ok resp →
      resp.tool_calls ≠ [] →
      (∀ tc ∈ resp.tool_calls, (decode_call tc).isOk = true) →
      client.create st.model
          (st.messages ++ [Message.user um, Message.assistant resp.content resp.tool_calls]
            ++ resp.tool_calls.map (tool_message sb)) false = Except.error e →
      chat_fn client sb st um =
        ({ st with messages :=
             st.messages ++ [Message.user um, Message.assistant resp.content resp.tool_calls]
               ++ resp.tool_calls.map (tool_message sb) },
         Except.error e)) :=
  ⟨fun e h1 => chat_fn_initial_error_eq client sb st um e h1,
   fun resp e h1 hne hdec h2 =>
     chat_fn_followup_error_eq client sb st um resp e h1 hne hdec h2⟩

/-- C5 witness: `clientF`'s initial call raises, so the turn fails with only
the user message appended; `clientG`'s follow-up call raises, so that turn
fails with no follow-up assistant message appended. -/
theorem c5_witness :
    (clientF.create initialState.model (initialState.messages ++ [Message.user "hi"]) true =
      Except.error "APIConnectionError: connection refused") ∧
    chat_fn clientF sbDemo initialState "hi" =
      ({ initialState with messages := initialState.messages ++ [Message.user "hi"] },
       Except.error "APIConnectionError: connection refused") ∧
    chat_fn clientG sbDemo initialState "hi" =
      ({ initialState with messages :=
           initialState.messages
             ++ [Message.user "hi", Message.assistant respBatch2.content respBatch2.tool_calls]
             ++ respBatch2.tool_calls.map (tool_message sbDemo) },
       Except.error "RateLimitError: too many requests") :=
  ⟨rfl,
   (c5_model_failure_leaves_store_consistent clientF sbDemo initialState "hi").1
     "APIConnectionError: connection refused" rfl,
   (c5_model_failure_leaves_store_consistent clientG sbDemo initialState "hi").2
     respBatch2 "RateLimitError: too many requests" rfl (List.cons_ne_nil _ _)
     (by decide) rfl⟩

/-- C6: a command the sandbox completes returns `result.stdout` as the
success payload, whatever the exit code; and two completed runs with the
same stdout are indistinguishable to the caller even when their exit codes
differ — exit-code inspection does not exist in the source. -/
theorem c6_run_commands_stdout_regardless_of_exit (sb : SandboxModel)
    (command : Json) (r : CommandResult)
    (h : sb.commandsRun command = Except.ok r) :
    run_commands sb command = r.stdout ∧
    ∀ (sb2 : SandboxModel) (r2 : CommandResult),
      sb2.commandsRun command = Except.ok r2 → r2.stdout = r.stdout →
      run_commands sb2 command = run_commands sb command := by
  constructor
  · simp [run_commands, h]
  · intro sb2 r2 h2 hst
    simp [run_commands, h, h2, hst]

/-- C6 witness: `sbExit2` completes every command with exit code 2 and
stdout "boom"; the payload is "boom", and `sbExit0` (exit code 0, same
stdout) is indistinguishable from it. -/
theorem c6_witness :
    (sbExit2.commandsRun (Json.str "make") =
      Except.ok { stdout := "boom", exitCode := 2 }) ∧
    run_commands sbExit2 (Json.str "make") = "boom" ∧
    run_commands sbExit0 (Json.str "make") = run_commands sbExit2 (Json.str "make") :=
  ⟨rfl,
   (c6_run_commands_stdout_regardless_of_exit sbExit2 (Json.str "make")
     { stdout := "boom", exitCode := 2 } rfl).1,
   (c6_run_commands_stdout_regardless_of_exit sbExit2 (Json.str "make")
     { stdout := "boom", exitCode := 2 } rfl).2 sbExit0
     { stdout := "boom", exitCode := 0 } rfl rfl⟩

/-- Resolving a tool call whose name is outside the registry does not
attempt keyword binding: with a parseable argument payload it decodes to
the unknown-tool branch of the dispatch chain. -/
theorem decode_call_unknown (tc : ToolCall) (j : Json)
    (hj : tc.arguments = Except.ok j) (hn : tc.name ∉ registryNames) :
    decode_call tc = Except.ok (DecodedCall.unknownCall tc.name) := by
  simp [registryNames] at hn
  obtain ⟨h1, h2, h3, h4⟩ := hn
  simp [decode_call, hj, h1, h2, h3, h4]

/-- C7 counterexample: the claim quantifies over every request naming an
unknown tool, but a request whose tool is unknown *and* whose raw argument
payload is not valid JSON raises out of `chat_fn` (the `json.loads` at
line 162 runs before the dispatch chain): the turn of `clientU` ends in an
exception and no tool-role message is in the store. -/
theorem c7_counterexample :
    respUnknownBad.tool_calls = [tcUnknownBadJson] ∧
    tcUnknownBadJson.name ∉ registryNames ∧
    (chat_fn clientU sbDemo initialState "hi").2 =
      Except.error "Expecting value: line 1 column 1 (char 0)" ∧
    ∀ m ∈ (chat_fn clientU sbDemo initialState "hi").1.messages,
      m.isToolRole = false :=
  ⟨rfl, by decide, rfl, by decide⟩

/-- C7 (amended): for every tool-call request naming a tool not present in
the registry *whose raw argument payload is valid JSON*, a tool-role
message is appended whose content identifies the tool as unknown, no
exception is raised to the caller, and the remaining requests of the batch
are still processed. -/
theorem c7_unknown_tool_recovered (client : Client) (sb : SandboxModel)
    (st : ConversationState) (um : String) (resp fresp : ModelResponse)
    (i : Nat) (j : Json)
    (h1 : client.create st.model (st.messages ++ [Message.user um]) true =
      Except.ok resp)
    (hne : resp.tool_calls ≠ [])
    (hi : i < resp.tool_calls.length)
    (hunk : (resp.tool_calls.get ⟨i, hi⟩).name ∉ registryNames)
    (hjson : (resp.tool_calls.get ⟨i, hi⟩).arguments = Except.ok j)
    (hdec : ∀ tc ∈ resp.tool_calls, (decode_call tc).isOk = true)
    (h2 : client.create st.model
        (st.messages ++ [Message.user um, Message.assistant resp.content resp.tool_calls]
          ++ resp.tool_calls.map (tool_message sb)) false = Except.ok fresp) :
    chat_fn client sb st um =
      ({ st with messages :=
           st.messages ++ [Message.user um, Message.assistant resp.content resp.tool_calls]
             ++ resp.tool_calls.map (tool_message sb)
             ++ [Message.assistant fresp.content fresp.tool_calls] },
       Except.ok fresp.content) ∧
    tool_message sb (resp.tool_calls.get ⟨i, hi⟩) =
      Message.tool (resp.tool_calls.get ⟨i, hi⟩).id
        ("Error: Unknown tool " ++ (resp.tool_calls.get ⟨i, hi⟩).name) := by
  refine ⟨chat_fn_tools_ok_eq client sb st um resp fresp h1 hne hdec h2, ?_⟩
  have hd := decode_call_unknown (resp.tool_calls.get ⟨i, hi⟩) j hjson hunk
  simp only [List.get_eq_getElem] at hd
  simp [tool_message, run_call, hd, run_decoded]

/-- C7 witness: the middle request of `clientK`'s batch names the unknown
tool `list_files` with parseable arguments; its tool-role error message is
appended, the flanking requests still run, and the turn completes. -/
theorem c7_witness :
    (1 < respWithUnknown.tool_calls.length) ∧
    tcUnknown.name ∉ registryNames ∧
    chat_fn clientK sbDemo initialState "hi" =
      ({ initialState with messages :=
           initialState.messages
             ++ [Message.user "hi",
                 Message.assistant respWithUnknown.content respWithUnknown.tool_calls]
             ++ respWithUnknown.tool_calls.map (tool_message sbDemo)
             ++ [Message.assistant respFinal.content respFinal.tool_calls] },
       Except.ok respFinal.content) ∧
    tool_message sbDemo (respWithUnknown.tool_calls.get ⟨1, by decide⟩) =
      Message.tool (respWithUnknown.tool_calls.get ⟨1, by decide⟩).id
        ("Error: Unknown tool " ++ (respWithUnknown.tool_calls.get ⟨1, by decide⟩).name) :=
  ⟨by decide, by decide,
    (c7_unknown_tool_recovered clientK sbDemo initialState "hi"
      respWithUnknown respFinal 1 (Json.obj []) rfl (List.cons_ne_nil _ _)
      (by decide) (by decide) rfl (by decide) rfl).1,
    (c7_unknown_tool_recovered clientK sbDemo initialState "hi"
      respWithUnknown respFinal 1 (Json.obj []) rfl (List.cons_ne_nil _ _)
      (by decide) (by decide) rfl (by decide) rfl).2⟩

/-- C3 counterexample: a request for the known tool `read_file` whose raw
argument payload is not valid JSON does not become an error-tagged
`ToolResult`: the `json.loads` exception escapes `chat_fn` (the executor
*does* crash out of the turn) and no tool-role error message is appended. -/
theorem c3_counterexample :
    respBadOnly.tool_calls = [tcBadJson] ∧
    tcBadJson.name = "read_file" ∧
    (chat_fn clientM sbDemo initialState "hi").2 =
      Except.error "Expecting value: line 1 column 1 (char 0)" ∧
    ∀ m ∈ (chat_fn clientM sbDemo initialState "hi").1.messages,
      m.isToolRole = false :=
  ⟨rfl, rfl, rfl, by decide⟩

/-- C3 (amended): a tool-call request whose raw argument payload is
malformed (its `json.loads` raises, or — for a known tool — the keyword
binding or the `len(files)` of `write_files` raises) aborts the turn: the
exception propagates out of `chat_fn` as a turn-level failure, no tool-role
message is appended for the failing request or any later request of the
batch, and the earlier requests' tool-role messages remain. -/
theorem c3_malformed_payload_raises (client : Client) (sb : SandboxModel)
    (st : ConversationState) (um : String) (resp : ModelResponse)
    (pre post : List ToolCall) (bad : ToolCall) (e : String)
    (h1 : client.create st.model (st.messages ++ [Message.user um]) true =
      Except.ok resp)
    (hsplit : resp.tool_calls = pre ++ bad :: post)
    (hpre : ∀ tc ∈ pre, (decode_call tc).isOk = true)
    (hbad : decode_call bad = Except.error e) :
    chat_fn client sb st um =
      ({ st with messages :=
           st.messages ++ [Message.user um, Message.assistant resp.content resp.tool_calls]
             ++ pre.map (tool_message sb) },
       Except.error e) ∧
    (pre.map (tool_message sb)).length = pre.length :=
  ⟨chat_fn_decode_error_eq client sb st um resp pre post bad e h1 hsplit hpre hbad,
   by simp⟩

/-- C3 amended-claim witness: in `clientN`'s batch the second request's
payload is malformed; the first request's tool-role message is appended,
then the exception aborts the turn — the third request never runs. -/
theorem c3_witness :
    (decode_call tcBadJson =
      Except.error "Expecting value: line 1 column 1 (char 0)") ∧
    respWithBad.tool_calls = [tcLs] ++ tcBadJson :: [tcReadA] ∧
    chat_fn clientN sbDemo initialState "hi" =
      ({ initialState with messages :=
           initialState.messages
             ++ [Message.user "hi",
                 Message.assistant respWithBad.content respWithBad.tool_calls]
             ++ [tool_message sbDemo tcLs] },
       Except.error "Expecting value: line 1 column 1 (char 0)") :=
  ⟨rfl, rfl,
    (c3_malformed_payload_raises clientN sbDemo initialState "hi" respWithBad
      [tcLs] [tcReadA] tcBadJson "Expecting value: line 1 column 1 (char 0)"
      rfl rfl (by decide) rfl).1⟩

/-- C8: the store is append-only.  Every entry point of the system extends
the message sequence: after any `chat_fn` turn — success, model-call
failure, or decode failure — the prior sequence is an initial segment of
the new one and the length never decreases, while `execute_command` and
`set_model` leave the message sequence untouched. -/
theorem c8_store_append_only (client : Client) (sb : SandboxModel)
    (st : ConversationState) (um cmd sel : String) :
    (∃ t, (chat_fn client sb st um).1.messages = st.messages ++ t) ∧
    st.messages.length ≤ (chat_fn client sb st um).1.messages.length ∧
    (execute_command sb st cmd).1.messages = st.messages ∧
    (set_model st sel).1.messages = st.messages := by
  have hmain : ∃ t, (chat_fn client sb st um).1.messages = st.messages ++ t := by
    cases h1 : client.create st.model (st.messages ++ [Message.user um]) true with
    | error e => exact ⟨[Message.user um], by simp [chat_fn, h1]⟩
    | ok resp =>
        cases hemp : resp.tool_calls.isEmpty with
        | true =>
            exact ⟨[Message.user um, Message.assistant resp.content resp.tool_calls],
              by simp [chat_fn, h1, hemp]⟩
        | false =>
            obtain ⟨t, ht⟩ := process_tool_calls_fst_append sb resp.tool_calls
              (st.messages
                ++ [Message.user um, Message.assistant resp.content resp.tool_calls])
            rcases hp : process_tool_calls sb
                (st.messages
                  ++ [Message.user um, Message.assistant resp.content resp.tool_calls])
                resp.tool_calls with ⟨msgs3, res⟩
            rw [hp] at ht
            simp only at ht
            cases res with
            | error e =>
                refine ⟨[Message.user um] ++
                  [Message.assistant resp.content resp.tool_calls] ++ t, ?_⟩
                simp [chat_fn, h1, hemp, hp, ht]
            | ok u =>
                rw [ht] at hp
                cases h2 : client.create st.model
                    (st.messages
                      ++ [Message.user um, Message.assistant resp.content resp.tool_calls]
                      ++ t) false with
                | error e =>
                    simp only [List.append_assoc, List.cons_append,
                      List.nil_append] at h2
                    refine ⟨[Message.user um] ++
                      [Message.assistant resp.content resp.tool_calls] ++ t, ?_⟩
                    simp [chat_fn, h1, hemp, hp, h2]
                | ok fresp =>
                    simp only [List.append_assoc, List.cons_append,
                      List.nil_append] at h2
                    refine ⟨[Message.user um] ++
                      [Message.assistant resp.content resp.tool_calls] ++ t ++
                      [Message.assistant fresp.content fresp.tool_calls], ?_⟩
                    simp [chat_fn, h1, hemp, hp, h2]
  refine ⟨hmain, ?_, ?_, rfl⟩
  · obtain ⟨t, ht⟩ := hmain
    rw [ht]
    simp
  · by_cases h : pyStrip cmd = "" <;> simp [execute_command, h]

/-- C10: the operator command surface never touches the conversation
state: for every input `execute_command` returns the state unchanged, and a
command that is blank after stripping yields the warning string without
consulting the sandbox (the result is the same for every sandbox). -/
theorem c10_execute_command_preserves_store (sb : SandboxModel)
    (st : ConversationState) (command : String) :
    (execute_command sb st command).1 = st ∧
    (pyStrip command = "" →
      (execute_command sb st command).2 = "⚠️ Please enter a command." ∧
      ∀ sb2 : SandboxModel,
        (execute_command sb2 st command).2 = (execute_command sb st command).2) := by
  constructor
  · by_cases h : pyStrip command = "" <;> simp [execute_command, h]
  · intro h
    constructor
    · simp [execute_command, h]
    · intro sb2
      simp [execute_command, h]

/-- C10 witness: a whitespace-only command leaves the store untouched and
returns the warning. -/
theorem c10_witness :
    (execute_command sbDemo initialState "   ").1 = initialState ∧
    pyStrip "   " = "" ∧
    (execute_command sbDemo initialState "   ").2 = "⚠️ Please enter a command." :=
  ⟨(c10_execute_command_preserves_store sbDemo initialState "   ").1,
   rfl,
   ((c10_execute_command_preserves_store sbDemo initialState "   ").2 rfl).1⟩
